import Mathlib

/-!
Shallow embedding of the event-tracking router of the phishing campaign
manager (`api/routers/events.py`).

The router's handlers validate foreign keys against a relational store,
insert one `Event` row, commit, and return a canned response.  The store is
modelled as an explicit `DB` value threaded through every handler; a commit
is an append to `DB.events`, a rollback returns the caller's `DB` unchanged.
The store assigns event ids from `DB.next_id` and timestamps from `DB.now`
(both abstract counters).
-/

/-- Modelled from the spec: the fixed event-kind enumeration of `models.EventType`
(`models.py` is not part of the sources; §3 of the spec lists the enumeration). -/
inductive EventType where
  | OPEN
  | CLICK
  | SUBMITTED
  | REPORTED
  | DOWNLOADED_ATTACHMENT
deriving DecidableEq, Repr

/-- Modelled from the spec: the string `.value` of an `EventType` member, used by
`get_events` when building the response (`event.Event.event_type.value`). -/
def EventType.value : EventType → String
  | .OPEN => "OPEN"
  | .CLICK => "CLICK"
  | .SUBMITTED => "SUBMITTED"
  | .REPORTED => "REPORTED"
  | .DOWNLOADED_ATTACHMENT => "DOWNLOADED_ATTACHMENT"

/-- Modelled from the spec: `models.Campaign` — integer id and display name (§3). -/
structure Campaign where
  id : Int
  name : String
deriving DecidableEq, Repr

/-- Modelled from the spec: `models.Employee` — integer id and lookup email (§3). -/
structure Employee where
  id : Int
  email : String
deriving DecidableEq, Repr

/-- Modelled from the spec: `models.Event` (§3).  `timestamp` is the store-assigned
creation instant, modelled as an abstract integer tick. -/
structure Event where
  id : Int
  email : String
  ip : String
  event_type : EventType
  campaign_id : Int
  employee_id : Int
  timestamp : Int
deriving DecidableEq, Repr

/-- The relational store visible to one request: the three tables plus the
store's id/timestamp generators. -/
structure DB where
  campaigns : List Campaign
  employees : List Employee
  events : List Event
  next_id : Int
  now : Int
deriving DecidableEq, Repr

/-- A FastAPI `HTTPException`: status code and detail string. -/
structure HTTPError where
  status_code : Nat
  detail : String
deriving DecidableEq, Repr

/-- `str(e)` of a (starlette) `HTTPException`: `f"{status_code}: {detail}"`. -/
def HTTPError.str (e : HTTPError) : String :=
  toString e.status_code ++ ": " ++ e.detail

/-- The generic `except Exception as e: db.rollback(); raise HTTPException(500, str(e))`
clause.  In `track_click`, `track_reported` and `track_downloaded` it is the ONLY
except clause, so the `HTTPException(404, ...)` raised inside the `try` block is
caught here and re-raised as a 500 whose detail is `str` of the original. -/
def wrap500 (e : HTTPError) : HTTPError :=
  ⟨500, e.str⟩

/-- The success responses the handlers can return.  Template responses are
represented by the template they render and the context values passed to it. -/
inductive Resp where
  | pixel (content : List Nat)
  | submissionPage (campaign_id : Int) (employee_email : String) (employee_id : Int)
  | trainingPage (campaign_id : Int) (email : String)
  | reportedPage
  | jsonStatus (status : String)
deriving DecidableEq, Repr

/-- The value of one base64 alphabet character (None for a non-alphabet char). -/
def b64val (c : Char) : Option Nat :=
  if 'A' ≤ c ∧ c ≤ 'Z' then some (c.toNat - 65)
  else if 'a' ≤ c ∧ c ≤ 'z' then some (c.toNat - 97 + 26)
  else if '0' ≤ c ∧ c ≤ '9' then some (c.toNat - 48 + 52)
  else if c = '+' then some 62
  else if c = '/' then some 63
  else none

/-- Standard base64 decoding of a padded character stream, four characters to
three bytes, `=` padding ending the data (the semantics of `base64.b64decode`
on well-formed input). -/
def b64decodeChars : List Char → List Nat
  | c1 :: c2 :: c3 :: c4 :: rest =>
    match b64val c1, b64val c2 with
    | some v1, some v2 =>
      let b1 := v1 * 4 + v2 / 16
      if c3 = '=' then [b1]
      else
        match b64val c3 with
        | some v3 =>
          let b2 := v2 % 16 * 16 + v3 / 4
          if c4 = '=' then [b1, b2]
          else
            match b64val c4 with
            | some v4 => b1 :: b2 :: (v3 % 4 * 64 + v4) :: b64decodeChars rest
            | none => []
        | none => []
    | _, _ => []
  | _ => []

/-- `base64.b64decode` as a byte list. -/
def b64decode (s : String) : List Nat :=
  b64decodeChars s.data

/-- The fixed pixel constant bound inside `track_open`. -/
def ONE_PIXEL_GIF_BASE64 : String :=
  "R0lGODlhAQABAPAAAAAAAAAAACH5BAEAAAAALAAAAAABAAEAAAICRAEAOw=="

/-- `base64.b64decode(ONE_PIXEL_GIF_BASE64)` — the body served by `track_open`. -/
def ONE_PIXEL_GIF : List Nat :=
  b64decode ONE_PIXEL_GIF_BASE64

/-- `GET /events/track_open` (`track_open` in `events.py`).  Campaign lookup,
employee lookup, insert an OPEN event, return the pixel.  The handler has an
`except HTTPException` clause that re-raises after rollback, so the 404s keep
their status code. -/
def track_open (client_ip email : String) (campaign_id : Int) (db : DB) :
    Except HTTPError Resp × DB :=
  match db.campaigns.find? (fun c => c.id == campaign_id) with
  | none => (Except.error ⟨404, "Campaign not found"⟩, db)
  | some _ =>
    match db.employees.find? (fun e => e.email == email) with
    | none => (Except.error ⟨404, "Employee not found"⟩, db)
    | some employee =>
      (Except.ok (Resp.pixel ONE_PIXEL_GIF),
       { db with
           events := db.events ++
             [{ id := db.next_id, email := email, ip := client_ip,
                event_type := EventType.OPEN, campaign_id := campaign_id,
                employee_id := employee.id, timestamp := db.now }],
           next_id := db.next_id + 1 })

/-- `GET /events/track_click` (`track_click` in `events.py`).  Same lookups as
`track_open`, inserts a CLICK event, renders `submission.html`.  Its only
except clause is the generic one, so the internal 404 `HTTPException`s are
caught and surfaced as 500 (`wrap500`). -/
def track_click (client_ip email : String) (campaign_id : Int) (db : DB) :
    Except HTTPError Resp × DB :=
  match db.campaigns.find? (fun c => c.id == campaign_id) with
  | none => (Except.error (wrap500 ⟨404, "Campaign not found"⟩), db)
  | some _ =>
    match db.employees.find? (fun e => e.email == email) with
    | none => (Except.error (wrap500 ⟨404, "Employee not found"⟩), db)
    | some employee =>
      (Except.ok (Resp.submissionPage campaign_id email employee.id),
       { db with
           events := db.events ++
             [{ id := db.next_id, email := email, ip := client_ip,
                event_type := EventType.CLICK, campaign_id := campaign_id,
                employee_id := employee.id, timestamp := db.now }],
           next_id := db.next_id + 1 })

/-- `form.get(key)`: starlette form data keeps the LAST value of a repeated key. -/
def formGet (form : List (String × String)) (key : String) : Option String :=
  (form.reverse.find? (fun p => p.1 == key)).map (fun p => p.2)

/-- Python truthiness of `form.get(key)`: `None` and the empty string are falsy. -/
def truthyStr : Option String → Bool
  | none => false
  | some s => !(s == "")

/-- Accumulate a decimal digit string; `none` when a non-digit is met or no
digit has been read. -/
def digitsVal : List Char → Option Nat → Option Nat
  | [], acc => acc
  | c :: cs, acc =>
    if '0' ≤ c ∧ c ≤ '9' then
      digitsVal cs (some ((acc.getD 0) * 10 + (c.toNat - 48)))
    else none

/-- Whitespace stripped by Python `int(str)` before parsing. -/
def pyStrip (c : Char) : Bool :=
  c = ' ' ∨ c = '\t' ∨ c = '\n' ∨ c = '\r' ∨ c = Char.ofNat 11 ∨ c = Char.ofNat 12

/-- Python `int(s)` on a decimal string: surrounding whitespace allowed, one
optional sign, then at least one ASCII digit; `none` models `ValueError`.
(Digit-group underscores, non-ASCII digits are not modelled.) -/
def pyInt (s : String) : Option Int :=
  match (s.data.dropWhile pyStrip).reverse.dropWhile pyStrip |>.reverse with
  | '-' :: rest => (digitsVal rest none).map (fun n => -(n : Int))
  | '+' :: rest => (digitsVal rest none).map (fun n => (n : Int))
  | rest => (digitsVal rest none).map (fun n => (n : Int))

/-- `POST /events/track_submitted` (`track_submitted` in `events.py`).  Reads the
three form fields, 400 when any is falsy (`not all([...])`) or when an id does
not parse as an integer, otherwise inserts a SUBMITTED event — the
`employee_id` is taken from the form, no campaign or employee lookup happens —
and renders `training.html`.  An `except HTTPException` clause re-raises, so
the 400s keep their status code. -/
def track_submitted (client_ip : String) (form : List (String × String)) (db : DB) :
    Except HTTPError Resp × DB :=
  let email := formGet form "employee_email"
  let campaign_id := formGet form "campaign_id"
  let employee_id := formGet form "employee_id"
  if truthyStr email && truthyStr campaign_id && truthyStr employee_id then
    match pyInt (campaign_id.getD ""), pyInt (employee_id.getD "") with
    | some cid, some eid =>
      (Except.ok (Resp.trainingPage cid (email.getD "")),
       { db with
           events := db.events ++
             [{ id := db.next_id, email := email.getD "", ip := client_ip,
                event_type := EventType.SUBMITTED, campaign_id := cid,
                employee_id := eid, timestamp := db.now }],
           next_id := db.next_id + 1 })
    | _, _ => (Except.error ⟨400, "Invalid ID format"⟩, db)
  else (Except.error ⟨400, "Missing required fields"⟩, db)

/-- `GET /events/track_reported` (`track_reported` in `events.py`).  Employee
lookup only — the campaign is never checked — inserts a REPORTED event,
renders `reported.html`.  Only the generic except clause exists, so the 404
surfaces as 500 (`wrap500`). -/
def track_reported (client_ip email : String) (campaign_id : Int) (db : DB) :
    Except HTTPError Resp × DB :=
  match db.employees.find? (fun e => e.email == email) with
  | none => (Except.error (wrap500 ⟨404, "Employee not found"⟩), db)
  | some employee =>
    (Except.ok Resp.reportedPage,
     { db with
         events := db.events ++
           [{ id := db.next_id, email := email, ip := client_ip,
              event_type := EventType.REPORTED, campaign_id := campaign_id,
              employee_id := employee.id, timestamp := db.now }],
         next_id := db.next_id + 1 })

/-- `GET /events/track_downloaded` (the second function named `track_reported`
in `events.py` — a naming collision noted in the spec).  Identical to
`track_reported` except the event kind is DOWNLOADED_ATTACHMENT and it
returns `{"status": "success"}`. -/
def track_downloaded (client_ip email : String) (campaign_id : Int) (db : DB) :
    Except HTTPError Resp × DB :=
  match db.employees.find? (fun e => e.email == email) with
  | none => (Except.error (wrap500 ⟨404, "Employee not found"⟩), db)
  | some employee =>
    (Except.ok (Resp.jsonStatus "success"),
     { db with
         events := db.events ++
           [{ id := db.next_id, email := email, ip := client_ip,
              event_type := EventType.DOWNLOADED_ATTACHMENT,
              campaign_id := campaign_id, employee_id := employee.id,
              timestamp := db.now }],
         next_id := db.next_id + 1 })

/-- One row of the pydantic `EventResponse` returned by `get_events`: every
`Event` column, with `event_type` rendered through `.value`, plus the joined
campaign's name. -/
structure EventResponse where
  id : Int
  email : String
  ip : String
  event_type : String
  campaign_id : Int
  employee_id : Int
  campaign_name : String
  timestamp : Int
deriving DecidableEq, Repr

/-- The list-comprehension body of `get_events`: build one `EventResponse` from
an event and its joined campaign name. -/
def EventResponse.ofEvent (ev : Event) (campaign_name : String) : EventResponse :=
  { id := ev.id, email := ev.email, ip := ev.ip,
    event_type := ev.event_type.value, campaign_id := ev.campaign_id,
    employee_id := ev.employee_id, campaign_name := campaign_name,
    timestamp := ev.timestamp }

/-- `db.query(Event, Campaign.name).join(Campaign)`: the INNER join of the
events table with the campaigns table on `Event.campaign_id = Campaign.id`.
An event whose campaign id matches no campaign row yields no output row. -/
def joined : List Event → List Campaign → List (Event × String)
  | [], _ => []
  | ev :: rest, cs =>
    (cs.filter (fun c => c.id == ev.campaign_id)).map (fun c => (ev, c.name)) ++
      joined rest cs

/-- Python truthiness of an `Optional[int]` query parameter: `None` AND `0` are
falsy, so `if campaign_id:` skips the filter in both cases. -/
def pyTruthyInt : Option Int → Bool
  | none => false
  | some x => !(x == 0)

/-- `GET /events/` (`get_events` in `events.py`).  Joins events to campaigns,
applies each equality filter only when its parameter is truthy, and maps the
rows to `EventResponse`.  The read writes nothing: the store comes back
unchanged. -/
def get_events (campaign_id employee_id : Option Int) (db : DB) :
    List EventResponse × DB :=
  let rows0 := joined db.events db.campaigns
  let rows1 :=
    if pyTruthyInt campaign_id then
      rows0.filter (fun r => r.1.campaign_id == campaign_id.getD 0)
    else rows0
  let rows2 :=
    if pyTruthyInt employee_id then
      rows1.filter (fun r => r.1.employee_id == employee_id.getD 0)
    else rows1
  (rows2.map (fun r => EventResponse.ofEvent r.1 r.2), db)

/-! Concrete rows used to exercise the handlers (the spec's §8 scenario data:
campaign 1 "Q1 Phish", employee 7 "a@x.com"). -/

/-- The spec's scenario campaign. -/
def camp1 : Campaign := ⟨1, "Q1 Phish"⟩

/-- The spec's scenario employee. -/
def emp7 : Employee := ⟨7, "a@x.com"⟩

/-- A store holding the scenario campaign and employee and no events yet. -/
def db0 : DB := ⟨[camp1], [emp7], [], 1, 0⟩

/-- An event pointing at the existing campaign 1. -/
def ev1 : Event := ⟨10, "a@x.com", "9.9.9.9", EventType.OPEN, 1, 7, 0⟩

/-- An event whose `campaign_id` 5 matches no campaign row (as `track_submitted`
can insert). -/
def evOrphan : Event := ⟨11, "a@x.com", "9.9.9.9", EventType.SUBMITTED, 5, 7, 0⟩

/-- A store with one joinable event and one orphan event. -/
def db1 : DB := ⟨[camp1], [emp7], [ev1, evOrphan], 12, 0⟩

/-- The spec's §8 scenario form for `track_submitted`. -/
def formGood : List (String × String) :=
  [("employee_email", "a@x.com"), ("campaign_id", "1"), ("employee_id", "7")]

/-- A form whose `campaign_id` is not numeric. -/
def formBad : List (String × String) :=
  [("employee_email", "a@x.com"), ("campaign_id", "abc"), ("employee_id", "7")]

/-! Helper lemmas about the join and the filters of `get_events`. -/

/-- Every row of the join comes from an event and a campaign whose ids match. -/
theorem exists_of_mem_joined {evs : List Event} {cs : List Campaign}
    {row : Event × String} (h : row ∈ joined evs cs) :
    ∃ ev ∈ evs, ∃ c ∈ cs, c.id = ev.campaign_id ∧ row = (ev, c.name) := by
  induction evs with
  | nil => simp [joined] at h
  | cons e rest ih =>
    simp only [joined, List.mem_append] at h
    rcases h with h | h
    · rcases List.mem_map.mp h with ⟨c, hc, hrow⟩
      rcases List.mem_filter.mp hc with ⟨hcs, hid⟩
      exact ⟨e, List.mem_cons_self e rest, c, hcs, eq_of_beq hid, hrow.symm⟩
    · rcases ih h with ⟨ev, hev, c, hc, hid, hrow⟩
      exact ⟨ev, List.mem_cons_of_mem e hev, c, hc, hid, hrow⟩

/-- An event with a matching campaign row contributes its row to the join. -/
theorem mem_joined {evs : List Event} {cs : List Campaign} {ev : Event}
    {c : Campaign} (he : ev ∈ evs) (hc : c ∈ cs) (hid : c.id = ev.campaign_id) :
    (ev, c.name) ∈ joined evs cs := by
  induction evs with
  | nil => cases he
  | cons e rest ih =>
    simp only [joined, List.mem_append]
    rcases List.mem_cons.mp he with heq | he2
    · subst heq
      exact Or.inl (List.mem_map.mpr ⟨c, List.mem_filter.mpr ⟨hc, beq_of_eq hid⟩, rfl⟩)
    · exact Or.inr (ih he2)

/-- Filtering after a map is filtering before it, when the predicates agree. -/
theorem filter_map_comm {α β : Type} (f : α → β) (p : β → Bool) (q : α → Bool)
    (h : ∀ a, p (f a) = q a) (l : List α) :
    (l.map f).filter p = (l.filter q).map f := by
  rw [List.filter_map]
  congr 1
  exact List.filter_congr (fun a _ => h a)

/-- Two successive filters are one conjunctive filter. -/
theorem filter_filter_and {α : Type} (p q : α → Bool) (l : List α) :
    (l.filter p).filter q = l.filter fun a => p a && q a := by
  induction l with
  | nil => rfl
  | cons a t ih =>
    by_cases hp : p a <;> by_cases hq : q a <;>
      simp [List.filter_cons, hp, hq, ih]

/-- Every response row of `get_events` is the image of some row of the join. -/
theorem get_events_sub (campaign_id employee_id : Option Int) (db : DB) :
    ∀ r ∈ (get_events campaign_id employee_id db).1,
      ∃ row ∈ joined db.events db.campaigns,
        r = EventResponse.ofEvent row.1 row.2 := by
  intro r hr
  simp only [get_events] at hr
  rcases List.mem_map.mp hr with ⟨row, hrow, hre⟩
  refine ⟨row, ?_, hre.symm⟩
  by_cases h1 : pyTruthyInt campaign_id = true <;>
    by_cases h2 : pyTruthyInt employee_id = true <;>
    simp only [h1, h2, if_true, if_false, Bool.not_eq_true] at hrow <;>
    first
      | exact hrow
      | exact List.mem_of_mem_filter hrow
      | exact List.mem_of_mem_filter (List.mem_of_mem_filter hrow)

/-- A successfully parsed id string is not empty. -/
theorem pyInt_ne_empty {s : String} {n : Int} (h : pyInt s = some n) : s ≠ "" := by
  intro he
  rw [he] at h
  exact Option.noConfusion h

/-! The claim theorems. -/

/-- C1 (counterexample): `base64.b64decode` of the fixed pixel string yields 43
bytes, not 42, so the claim's "42-byte GIF" is false: at the spec's own scenario
input the success body served by `track_open` has length 43. -/
theorem C1_pixel_counterexample :
    (track_open "9.9.9.9" "a@x.com" 1 db0).1 = Except.ok (Resp.pixel ONE_PIXEL_GIF) ∧
    ONE_PIXEL_GIF.length = 43 ∧ ¬ ONE_PIXEL_GIF.length = 42 := by
  refine ⟨rfl, by decide, by decide⟩

/-- C1 (amended): when the campaign and the employee both exist, `track_open`
creates exactly one OPEN event carrying the supplied email, the campaign id,
the employee id resolved from the email and the client IP, and returns the
fixed base64-decoded GIF — 43 bytes, identical on every call. -/
theorem C1_track_open_amended (client_ip email : String) (campaign_id : Int)
    (db : DB)
    (hc : ∃ c, db.campaigns.find? (fun c => c.id == campaign_id) = some c)
    (he : ∃ emp, db.employees.find? (fun e => e.email == email) = some emp) :
    ∃ emp, db.employees.find? (fun e => e.email == email) = some emp ∧
      track_open client_ip email campaign_id db =
        (Except.ok (Resp.pixel ONE_PIXEL_GIF),
         { db with
             events := db.events ++
               [{ id := db.next_id, email := email, ip := client_ip,
                  event_type := EventType.OPEN, campaign_id := campaign_id,
                  employee_id := emp.id, timestamp := db.now }],
             next_id := db.next_id + 1 }) ∧
      ONE_PIXEL_GIF.length = 43 := by
  rcases hc with ⟨c, hc⟩
  rcases he with ⟨emp, he⟩
  refine ⟨emp, he, ?_, by decide⟩
  unfold track_open
  rw [hc, he]

/-- C1 (witness): the amended theorem at the spec's §8 scenario store. -/
theorem C1_track_open_amended_witness :
    ∃ emp, db0.employees.find? (fun e => e.email == "a@x.com") = some emp ∧
      track_open "9.9.9.9" "a@x.com" 1 db0 =
        (Except.ok (Resp.pixel ONE_PIXEL_GIF),
         { db0 with
             events := db0.events ++
               [{ id := db0.next_id, email := "a@x.com", ip := "9.9.9.9",
                  event_type := EventType.OPEN, campaign_id := 1,
                  employee_id := emp.id, timestamp := db0.now }],
             next_id := db0.next_id + 1 }) ∧
      ONE_PIXEL_GIF.length = 43 :=
  C1_track_open_amended "9.9.9.9" "a@x.com" 1 db0
    ⟨camp1, by decide⟩ ⟨emp7, by decide⟩

/-- C2 (code bug, evaluated at the failing input): with campaign 1 present and
no employee named `missing@x.com`, `track_open` does return 404 and no row, but
`track_click`, `track_reported` and `track_downloaded` return 500 — their only
`except` clause catches the internal `HTTPException(404)` and re-raises it as
500 with `str(e)` as detail — though still with zero rows created. -/
theorem C2_notfound_divergence :
    track_open "9.9.9.9" "missing@x.com" 1 db0 =
      (Except.error ⟨404, "Employee not found"⟩, db0) ∧
    track_click "9.9.9.9" "missing@x.com" 1 db0 =
      (Except.error ⟨500, "404: Employee not found"⟩, db0) ∧
    track_reported "9.9.9.9" "missing@x.com" 1 db0 =
      (Except.error ⟨500, "404: Employee not found"⟩, db0) ∧
    track_downloaded "9.9.9.9" "missing@x.com" 1 db0 =
      (Except.error ⟨500, "404: Employee not found"⟩, db0) := by
  refine ⟨rfl, rfl, rfl, rfl⟩

/-- C3 (code bug, evaluated at the failing input): with no campaign 2,
`track_open` returns 404 and no row as claimed, but `track_click` returns 500
(the internal 404 is swallowed by its generic `except` clause), though still
with zero rows created. -/
theorem C3_campaign_divergence :
    track_open "9.9.9.9" "a@x.com" 2 db0 =
      (Except.error ⟨404, "Campaign not found"⟩, db0) ∧
    track_click "9.9.9.9" "a@x.com" 2 db0 =
      (Except.error ⟨500, "404: Campaign not found"⟩, db0) := by
  refine ⟨rfl, rfl⟩

/-- C4: when the form carries all three fields and both ids parse as integers,
`track_submitted` inserts exactly one SUBMITTED event whose `employee_id` is
the form value (the store `db` is arbitrary: no campaign or employee existence
check is made) and renders the training page parameterized by campaign id and
email. -/
theorem C4_track_submitted_inserts (client_ip : String)
    (form : List (String × String)) (db : DB) (email cs es : String)
    (cid eid : Int)
    (hemail : formGet form "employee_email" = some email) (hne : email ≠ "")
    (hcs : formGet form "campaign_id" = some cs) (hcid : pyInt cs = some cid)
    (hes : formGet form "employee_id" = some es) (heid : pyInt es = some eid) :
    track_submitted client_ip form db =
      (Except.ok (Resp.trainingPage cid email),
       { db with
           events := db.events ++
             [{ id := db.next_id, email := email, ip := client_ip,
                event_type := EventType.SUBMITTED, campaign_id := cid,
                employee_id := eid, timestamp := db.now }],
           next_id := db.next_id + 1 }) := by
  have h1 : (email == "") = false := beq_eq_false_iff_ne.mpr hne
  have h2 : (cs == "") = false := beq_eq_false_iff_ne.mpr (pyInt_ne_empty hcid)
  have h3 : (es == "") = false := beq_eq_false_iff_ne.mpr (pyInt_ne_empty heid)
  simp [track_submitted, hemail, hcs, hes, truthyStr, h1, h2, h3, hcid, heid]

/-- C4 (witness): the theorem at the spec's §8 scenario form. -/
theorem C4_track_submitted_inserts_witness :
    track_submitted "9.9.9.9" formGood db0 =
      (Except.ok (Resp.trainingPage 1 "a@x.com"),
       { db0 with
           events := db0.events ++
             [{ id := db0.next_id, email := "a@x.com", ip := "9.9.9.9",
                event_type := EventType.SUBMITTED, campaign_id := 1,
                employee_id := 7, timestamp := db0.now }],
           next_id := db0.next_id + 1 }) :=
  C4_track_submitted_inserts "9.9.9.9" formGood db0 "a@x.com" "1" "7" 1 7
    (by decide) (by decide) (by decide) (by decide) (by decide) (by decide)

/-- C5: when any of the three form fields is absent, or a supplied id does not
parse as an integer, `track_submitted` returns 400 and leaves the store
unchanged; iterating the same bad request any number of times still leaves the
store unchanged. -/
theorem C5_track_submitted_bad_request (client_ip : String)
    (form : List (String × String)) (db : DB) (n : Nat)
    (h : formGet form "employee_email" = none ∨
         formGet form "campaign_id" = none ∨
         formGet form "employee_id" = none ∨
         pyInt ((formGet form "campaign_id").getD "") = none ∨
         pyInt ((formGet form "employee_id").getD "") = none) :
    (∃ d, track_submitted client_ip form db = (Except.error ⟨400, d⟩, db)) ∧
    (fun s => (track_submitted client_ip form s).2)^[n] db = db := by
  have step : ∀ s : DB, ∃ d,
      track_submitted client_ip form s = (Except.error ⟨400, d⟩, s) := by
    intro s
    by_cases hb : (truthyStr (formGet form "employee_email") &&
        truthyStr (formGet form "campaign_id") &&
        truthyStr (formGet form "employee_id")) = true
    · have hb2 := hb
      simp only [Bool.and_eq_true] at hb2
      rcases hb2 with ⟨⟨hb1, hb2⟩, hb3⟩
      have g1 : formGet form "employee_email" ≠ none := by
        intro hx; rw [hx] at hb1; exact Bool.noConfusion hb1
      have g2 : formGet form "campaign_id" ≠ none := by
        intro hx; rw [hx] at hb2; exact Bool.noConfusion hb2
      have g3 : formGet form "employee_id" ≠ none := by
        intro hx; rw [hx] at hb3; exact Bool.noConfusion hb3
      rcases h with hx | hx | hx | hx | hx
      · exact absurd hx g1
      · exact absurd hx g2
      · exact absurd hx g3
      · exact ⟨"Invalid ID format", by simp [track_submitted, hb1, hb2, hb3, hx]⟩
      · refine ⟨"Invalid ID format", ?_⟩
        cases hc : pyInt ((formGet form "campaign_id").getD "") with
        | none => simp [track_submitted, hb1, hb2, hb3, hc]
        | some cid => simp [track_submitted, hb1, hb2, hb3, hc, hx]
    · refine ⟨"Missing required fields", ?_⟩
      simp only [track_submitted]
      rw [if_neg]
      intro hx
      exact hb hx
  have fix : ∀ s : DB, (track_submitted client_ip form s).2 = s := by
    intro s
    rcases step s with ⟨d, hd⟩
    rw [hd]
  refine ⟨step db, ?_⟩
  induction n with
  | zero => rfl
  | succ k ih =>
    rw [Function.iterate_succ_apply]
    rw [fix db, ih]

/-- C5 (witness): the theorem at a form whose campaign id is non-numeric,
iterated twice. -/
theorem C5_track_submitted_bad_request_witness :
    (∃ d, track_submitted "9.9.9.9" formBad db0 = (Except.error ⟨400, d⟩, db0)) ∧
    (fun s => (track_submitted "9.9.9.9" formBad s).2)^[2] db0 = db0 :=
  C5_track_submitted_bad_request "9.9.9.9" formBad db0 2 (by decide)

/-- C6 (counterexample): on a store with a campaign-1 event and an orphan
event (campaign 5 has no row), supplying campaign_id = 0 returns an event
whose campaign_id is not 0 (the truthiness test skips the filter), and with no
filters the orphan event is not returned (the inner join drops it) — both
refuting the claim as stated. -/
theorem C6_filter_counterexample :
    (∃ r ∈ (get_events (some 0) none db1).1, ¬ r.campaign_id = 0) ∧
    ¬ (∀ ev ∈ db1.events, ∃ r ∈ (get_events none none db1).1, r.id = ev.id) := by
  decide

/-- C6 (amended): for NONZERO X and Y, the campaign filter keeps exactly the
returned rows with campaign_id = X, the employee filter those with
employee_id = Y, both together their intersection; with no filters every
stored event THAT HAS A MATCHING CAMPAIGN ROW appears in the result. -/
theorem C6_filters_amended (X Y : Int) (db : DB) (hX : X ≠ 0) (hY : Y ≠ 0) :
    (get_events (some X) none db).1 =
      ((get_events none none db).1).filter (fun r => r.campaign_id == X) ∧
    (get_events none (some Y) db).1 =
      ((get_events none none db).1).filter (fun r => r.employee_id == Y) ∧
    (get_events (some X) (some Y) db).1 =
      ((get_events none none db).1).filter
        (fun r => r.campaign_id == X && r.employee_id == Y) ∧
    ∀ ev ∈ db.events, (∃ c ∈ db.campaigns, c.id = ev.campaign_id) →
      ∃ c ∈ db.campaigns, c.id = ev.campaign_id ∧
        EventResponse.ofEvent ev c.name ∈ (get_events none none db).1 := by
  have hXb : (X == 0) = false := beq_eq_false_iff_ne.mpr hX
  have hYb : (Y == 0) = false := beq_eq_false_iff_ne.mpr hY
  have h0 : (get_events none none db).1 =
      (joined db.events db.campaigns).map
        (fun r => EventResponse.ofEvent r.1 r.2) := rfl
  refine ⟨?_, ?_, ?_, ?_⟩
  · have h1 : (get_events (some X) none db).1 =
        ((joined db.events db.campaigns).filter
          (fun r => r.1.campaign_id == X)).map
          (fun r => EventResponse.ofEvent r.1 r.2) := by
      simp [get_events, pyTruthyInt, hXb]
    rw [h0, h1]
    exact (filter_map_comm (fun r : Event × String => EventResponse.ofEvent r.1 r.2)
      (fun r => r.campaign_id == X) (fun r => r.1.campaign_id == X)
      (fun _ => rfl) (joined db.events db.campaigns)).symm
  · have h2 : (get_events none (some Y) db).1 =
        ((joined db.events db.campaigns).filter
          (fun r => r.1.employee_id == Y)).map
          (fun r => EventResponse.ofEvent r.1 r.2) := by
      simp [get_events, pyTruthyInt, hYb]
    rw [h0, h2]
    exact (filter_map_comm (fun r : Event × String => EventResponse.ofEvent r.1 r.2)
      (fun r => r.employee_id == Y) (fun r => r.1.employee_id == Y)
      (fun _ => rfl) (joined db.events db.campaigns)).symm
  · have h3 : (get_events (some X) (some Y) db).1 =
        (((joined db.events db.campaigns).filter
          (fun r => r.1.campaign_id == X)).filter
          (fun r => r.1.employee_id == Y)).map
          (fun r => EventResponse.ofEvent r.1 r.2) := by
      simp [get_events, pyTruthyInt, hXb, hYb]
    rw [h0, h3, filter_filter_and]
    exact (filter_map_comm (fun r : Event × String => EventResponse.ofEvent r.1 r.2)
      (fun r => r.campaign_id == X && r.employee_id == Y)
      (fun r => r.1.campaign_id == X && r.1.employee_id == Y)
      (fun _ => rfl) (joined db.events db.campaigns)).symm
  · rintro ev hev ⟨c, hc, hid⟩
    exact ⟨c, hc, hid,
      List.mem_map.mpr ⟨(ev, c.name), mem_joined hev hc hid, rfl⟩⟩

/-- C6 (witness): the amended theorem on the two-event store with X = 1,
Y = 7. -/
theorem C6_filters_amended_witness :
    (get_events (some 1) none db1).1 =
      ((get_events none none db1).1).filter (fun r => r.campaign_id == 1) ∧
    (get_events none (some 7) db1).1 =
      ((get_events none none db1).1).filter (fun r => r.employee_id == 7) ∧
    (get_events (some 1) (some 7) db1).1 =
      ((get_events none none db1).1).filter
        (fun r => r.campaign_id == 1 && r.employee_id == 7) ∧
    ∀ ev ∈ db1.events, (∃ c ∈ db1.campaigns, c.id = ev.campaign_id) →
      ∃ c ∈ db1.campaigns, c.id = ev.campaign_id ∧
        EventResponse.ofEvent ev c.name ∈ (get_events none none db1).1 :=
  C6_filters_amended 1 7 db1 (by decide) (by decide)

/-- C7: every row `get_events` returns is built from a stored event and a
campaign row whose id equals the event's campaign_id — all event fields plus
that campaign's name — and the read hands the store back unchanged. -/
theorem C7_view_fields (campaign_id employee_id : Option Int) (db : DB) :
    (∀ r ∈ (get_events campaign_id employee_id db).1,
       ∃ ev ∈ db.events, ∃ c ∈ db.campaigns,
         c.id = ev.campaign_id ∧ r = EventResponse.ofEvent ev c.name) ∧
    (get_events campaign_id employee_id db).2 = db := by
  refine ⟨?_, rfl⟩
  intro r hr
  rcases get_events_sub campaign_id employee_id db r hr with ⟨row, hrow, hre⟩
  rcases exists_of_mem_joined hrow with ⟨ev, hev, c, hc, hid, hrc⟩
  exact ⟨ev, hev, c, hc, hid, by rw [hre, hrc]⟩

/-- C7 (witness): the theorem at the two-event store, applied to the returned
view of the joinable event. -/
theorem C7_view_fields_witness :
    (∃ ev ∈ db1.events, ∃ c ∈ db1.campaigns, c.id = ev.campaign_id ∧
       EventResponse.ofEvent ev1 "Q1 Phish" = EventResponse.ofEvent ev c.name) ∧
    (get_events none none db1).2 = db1 :=
  ⟨(C7_view_fields none none db1).1 (EventResponse.ofEvent ev1 "Q1 Phish")
      (by decide),
   (C7_view_fields none none db1).2⟩

/-- C8: whenever the employee exists — the store is otherwise arbitrary, so in
particular no campaign check is made — `track_reported` inserts exactly one
REPORTED event with the supplied campaign_id and renders the reported page,
and `track_downloaded` inserts exactly one DOWNLOADED_ATTACHMENT event and
returns the success acknowledgment. -/
theorem C8_reported_downloaded (client_ip email : String) (campaign_id : Int)
    (db : DB) (emp : Employee)
    (he : db.employees.find? (fun e => e.email == email) = some emp) :
    track_reported client_ip email campaign_id db =
      (Except.ok Resp.reportedPage,
       { db with
           events := db.events ++
             [{ id := db.next_id, email := email, ip := client_ip,
                event_type := EventType.REPORTED, campaign_id := campaign_id,
                employee_id := emp.id, timestamp := db.now }],
           next_id := db.next_id + 1 }) ∧
    track_downloaded client_ip email campaign_id db =
      (Except.ok (Resp.jsonStatus "success"),
       { db with
           events := db.events ++
             [{ id := db.next_id, email := email, ip := client_ip,
                event_type := EventType.DOWNLOADED_ATTACHMENT,
                campaign_id := campaign_id, employee_id := emp.id,
                timestamp := db.now }],
           next_id := db.next_id + 1 }) := by
  constructor
  · unfold track_reported
    rw [he]
  · unfold track_downloaded
    rw [he]

/-- C8 (witness): the theorem with campaign_id 999, which has no campaign row
in the store. -/
theorem C8_reported_downloaded_witness :
    track_reported "9.9.9.9" "a@x.com" 999 db0 =
      (Except.ok Resp.reportedPage,
       { db0 with
           events := db0.events ++
             [{ id := db0.next_id, email := "a@x.com", ip := "9.9.9.9",
                event_type := EventType.REPORTED, campaign_id := 999,
                employee_id := emp7.id, timestamp := db0.now }],
           next_id := db0.next_id + 1 }) ∧
    track_downloaded "9.9.9.9" "a@x.com" 999 db0 =
      (Except.ok (Resp.jsonStatus "success"),
       { db0 with
           events := db0.events ++
             [{ id := db0.next_id, email := "a@x.com", ip := "9.9.9.9",
                event_type := EventType.DOWNLOADED_ATTACHMENT,
                campaign_id := 999, employee_id := emp7.id,
                timestamp := db0.now }],
           next_id := db0.next_id + 1 }) :=
  C8_reported_downloaded "9.9.9.9" "a@x.com" 999 db0 emp7 (by decide)

/-- C9: a stored event whose campaign_id matches no campaign row never
contributes to any `get_events` result, whatever the filters: every returned
row has a different campaign_id, hence is not the view of that event. -/
theorem C9_orphan_omitted (db : DB) (ev : Event)
    (campaign_id employee_id : Option Int)
    (_hev : ev ∈ db.events)
    (h : ∀ c ∈ db.campaigns, c.id ≠ ev.campaign_id) :
    ∀ r ∈ (get_events campaign_id employee_id db).1,
      r.campaign_id ≠ ev.campaign_id ∧
      ∀ nm : String, r ≠ EventResponse.ofEvent ev nm := by
  intro r hr
  rcases get_events_sub campaign_id employee_id db r hr with ⟨row, hrow, hre⟩
  rcases exists_of_mem_joined hrow with ⟨ev2, hev2, c, hc, hid, hrc⟩
  subst hre
  subst hrc
  constructor
  · show ev2.campaign_id ≠ ev.campaign_id
    rw [← hid]
    exact h c hc
  · intro nm heq
    have hce : ev2.campaign_id = ev.campaign_id :=
      congrArg EventResponse.campaign_id heq
    exact (h c hc) (hid.trans hce)

/-- C9 (witness): on the two-event store, the returned view of the joinable
event is not the view of the orphan event. -/
theorem C9_orphan_omitted_witness :
    (EventResponse.ofEvent ev1 "Q1 Phish").campaign_id ≠ evOrphan.campaign_id ∧
    ∀ nm : String,
      EventResponse.ofEvent ev1 "Q1 Phish" ≠ EventResponse.ofEvent evOrphan nm :=
  C9_orphan_omitted db1 evOrphan none none (by decide) (by decide)
    (EventResponse.ofEvent ev1 "Q1 Phish") (by decide)

/-- C10: a filter value of 0 is falsy in Python, so `get_events` with
campaign_id = 0 (or employee_id = 0) behaves exactly as if that filter were
not supplied at all. -/
theorem C10_zero_filter (campaign_id employee_id : Option Int) (db : DB) :
    get_events (some 0) employee_id db = get_events none employee_id db ∧
    get_events campaign_id (some 0) db = get_events campaign_id none db := by
  exact ⟨rfl, rfl⟩
